import Mathlib

/-!
Verification development for the Renogy BLE integration.

The definitions below are shallow embeddings of the Python source under
src/custom_components/renogy: pure functions become Lean functions over
lists of byte values (List Nat) and exact rationals (floats are modelled
as rationals, with the Python round builtin modelled as exact
round-half-to-even on the scaled rational); stateful coordinator code is
modelled as explicit state passing over record types whose fields mirror
the attributes the source mutates.
-/

namespace Renogy

/-- Python round with non-negative ndigits, modelled as exact
round-half-to-even on rationals: first the helper on integers. -/
def roundHalfEven (q : ℚ) : ℤ :=
  if q - ⌊q⌋ < 1/2 then ⌊q⌋
  else if 1/2 < q - ⌊q⌋ then ⌊q⌋ + 1
  else if ⌊q⌋ % 2 = 0 then ⌊q⌋ else ⌊q⌋ + 1

/-- Python round with ndigits, on exact rationals. -/
def pyRound (q : ℚ) (d : ℕ) : ℚ := (roundHalfEven (q * 10 ^ d) : ℚ) / 10 ^ d

/-- Big-endian unsigned integer from data at the given byte offset and
length, mirroring int.from_bytes on a slice. -/
def beNat (data : List ℕ) (offset len : ℕ) : ℕ :=
  ((data.drop offset).take len).foldl (fun acc b => acc * 256 + b) 0

/-- Big-endian integer from a byte slice, two-complement when signed,
mirroring int.from_bytes with a signedness flag. -/
def beInt (data : List ℕ) (offset len : ℕ) (signed : Bool) : ℤ :=
  let v := beNat data offset len
  if signed then
    if 2 ^ (8 * len - 1) ≤ v then (v : ℤ) - 2 ^ (8 * len) else (v : ℤ)
  else (v : ℤ)

/-! ## modbus.py -/

/-- Result triple of normalize_modbus_response. -/
structure NormResult where
  frame : List ℕ
  offset : ℕ
  wasSynthesized : Bool
deriving Repr, DecidableEq

/-- The first forward scan of normalize_modbus_response: the first start
in the range from 1 to len(raw) - expected_len whose bytes at start+1 and
start+2 equal the expected function code and byte count. -/
def scanExact (raw : List ℕ) (function_code byte_count expected_len : ℕ) : Option ℕ :=
  (List.range' 1 (raw.length - expected_len)).find? fun s =>
    decide (raw.getD (s + 1) 0 = function_code) &&
    decide (raw.getD (s + 2) 0 = byte_count)

/-- The relaxed fallback scan of normalize_modbus_response: byte count is
taken from the data itself, bounded by the buffer length. -/
def scanRelaxed (raw : List ℕ) (function_code : ℕ) : Option ℕ :=
  (List.range' 1 (raw.length - 5)).find? fun s =>
    decide (raw.getD (s + 1) 0 = function_code) &&
    decide (s + (3 + raw.getD (s + 2) 0 + 2) ≤ raw.length)

/-- Embedding of normalize_modbus_response from modbus.py; the source
names byte_count = word_count * 2 and expected_len = 3 + byte_count + 2,
inlined here. -/
def normalize_modbus_response (raw : List ℕ)
    (function_code word_count device_id : ℕ) : NormResult :=
  if raw.length = word_count * 2 then
    ⟨[device_id, function_code, word_count * 2] ++ raw ++ [0, 0], 0, true⟩
  else if raw.length = word_count * 2 + 2 then
    ⟨[device_id, function_code, word_count * 2] ++ raw, 0, true⟩
  else if raw.length < 3 + word_count * 2 + 2 then
    ⟨raw, 0, false⟩
  else if raw.getD 1 0 = function_code ∧ raw.getD 2 0 = word_count * 2 then
    ⟨raw.take (3 + word_count * 2 + 2), 0, false⟩
  else
    match scanExact raw function_code (word_count * 2) (3 + word_count * 2 + 2) with
    | some s => ⟨(raw.drop s).take (3 + word_count * 2 + 2), s, false⟩
    | none =>
      match scanRelaxed raw function_code with
      | some s => ⟨(raw.drop s).take (3 + raw.getD (s + 2) 0 + 2), s, false⟩
      | none => ⟨raw.take (3 + word_count * 2 + 2), 0, false⟩

/-! ## shunt_parser.py -/

/-- Embedding of bytes_to_int from shunt_parser.py: zero on an
insufficient slice, otherwise the scaled value rounded to 2 digits. -/
def bytes_to_int (data : List ℕ) (offset length : ℕ) (signed : Bool)
    (scale : ℚ) : ℚ :=
  if data.length < offset + length then 0
  else pyRound ((beInt data offset length signed : ℚ) * scale) 2

/-- The measurement map produced by parse_shunt_packet. -/
structure ShuntPacket where
  sequence : ℕ
  battery_voltage : ℚ
  battery_current : ℚ
  starter_voltage : ℚ
  state_of_charge : ℚ
  power : ℚ
deriving Repr, DecidableEq

/-- Embedding of parse_shunt_packet from shunt_parser.py. -/
def parse_shunt_packet (data : List ℕ) : Option ShuntPacket :=
  if data.length = 0 then none
  else if data.length < 36 then none
  else if ¬(data.getD 0 0 = 0x42 ∧ data.getD 1 0 = 0x57) then none
  else
    let battery_voltage := bytes_to_int data 25 3 false (1/1000)
    let battery_current := bytes_to_int data 21 3 true (1/1000)
    some {
      sequence := beNat data 2 2
      battery_voltage := battery_voltage
      battery_current := battery_current
      starter_voltage := bytes_to_int data 30 2 false (1/1000)
      state_of_charge := bytes_to_int data 34 2 false (1/10)
      power := pyRound (battery_voltage * battery_current) 2 }

/-! ## shunt_ble.py -/

/-- Embedding of the helper from shunt_ble.py that extracts a numeric
value, returning none when the payload is shorter than the slice. -/
def bytesToNumber (payload : List ℕ) (offset length : ℕ) (signed : Bool)
    (scale : ℚ) (decimals : Option ℕ) : Option ℚ :=
  if payload.length < offset + length then none
  else
    let scaled := (beInt payload offset length signed : ℚ) * scale
    some (match decimals with
          | some d => pyRound scaled d
          | none => scaled)

/-- Decoded shunt voltage, offset 25, 3 bytes, scale 0.001, 2 digits. -/
def decodedShuntVoltage (payload : List ℕ) : Option ℚ :=
  bytesToNumber payload 25 3 false (1/1000) (some 2)

/-- Decoded starter battery voltage, offset 30, 2 bytes. -/
def decodedStarterVoltage (payload : List ℕ) : Option ℚ :=
  bytesToNumber payload 30 2 false (1/1000) (some 2)

/-- Decoded shunt current, offset 21, 3 bytes, signed, scale 0.001. -/
def decodedShuntCurrent (payload : List ℕ) : Option ℚ :=
  bytesToNumber payload 21 3 true (1/1000) (some 2)

/-- Decoded state of charge, offset 34, 2 bytes, scale 0.1. -/
def decodedShuntSoc (payload : List ℕ) : Option ℚ :=
  bytesToNumber payload 34 2 false (1/10) (some 1)

/-- Decoded battery temperature, offset 66, 2 bytes, scale 0.1. -/
def decodedShuntTemp (payload : List ℕ) : Option ℚ :=
  bytesToNumber payload 66 2 false (1/10) (some 1)

/-- The measurement map produced by parse_shunt_payload. -/
structure ShuntPayload where
  shunt_voltage : ℚ
  shunt_current : ℚ
  shunt_power : ℚ
  shunt_soc : Option ℚ
  shunt_energy : Option ℚ
  starter_battery_voltage : Option ℚ
  battery_temperature : Option ℚ
deriving Repr, DecidableEq

/-- Embedding of parse_shunt_payload from shunt_ble.py, sanity filters
included. -/
def parse_shunt_payload (payload : List ℕ) : Option ShuntPayload :=
  match decodedShuntVoltage payload, decodedShuntCurrent payload with
  | some voltage, some current =>
    let power := pyRound (voltage * current) 2
    if voltage < 0 ∨ 80 < voltage then none
    else if 500 < |current| then none
    else if 10000 < |power| then none
    else
      let battery_temp := match decodedShuntTemp payload with
        | some t => if t < -40 ∨ 100 < t then none else some t
        | none => none
      let soc := match decodedShuntSoc payload with
        | some s => if s < 0 ∨ 200 < s then none else some s
        | none => none
      some { shunt_voltage := voltage
             shunt_current := current
             shunt_power := power
             shunt_soc := soc
             shunt_energy := none
             starter_battery_voltage := decodedStarterVoltage payload
             battery_temperature := battery_temp }
  | _, _ => none

/-! ## const.py -/

/-- DEFAULT_SCAN_INTERVAL from const.py, in seconds. -/
def DEFAULT_SCAN_INTERVAL : ℚ := 60

/-- MIN_SCAN_INTERVAL from const.py, in seconds. -/
def MIN_SCAN_INTERVAL : ℚ := 10

/-- MAX_SCAN_INTERVAL from const.py, in seconds. -/
def MAX_SCAN_INTERVAL : ℚ := 600

/-- The member names of the DeviceType enum as defined in const.py. -/
def deviceTypeMembers : List String := ["CONTROLLER", "BATTERY", "INVERTER"]

/-- The DeviceType member names referenced by device-type dispatch and
name-detection code: CONTROLLER, BATTERY, INVERTER, DCC and SHUNT300 in
device_name.py, and SHUNT in the coordinator dispatch in ble.py. -/
def dispatchReferencedDeviceTypeMembers : List String :=
  ["CONTROLLER", "BATTERY", "INVERTER", "DCC", "SHUNT300", "SHUNT"]

/-- SENSOR_VALIDATION_LIMITS from const.py: sensor key to
(min_value, max_value, max_change_per_update). -/
def SENSOR_VALIDATION_LIMITS : List (String × ℚ × ℚ × Option ℚ) :=
  [("battery_voltage", 0, 80, some 5),
   ("battery_current", -100, 100, some 50),
   ("battery_percentage", 0, 100, some 90),
   ("battery_temperature", -40, 85, some 3),
   ("charging_amp_hours_today", 0, 10000, some 300),
   ("discharging_amp_hours_today", 0, 10000, some 30),
   ("pv_voltage", 0, 150, some 10),
   ("pv_current", 0, 100, some 50),
   ("pv_power", 0, 600, some 600),
   ("max_charging_power_today", 0, 5000, some 800),
   ("power_generation_today", 0, 50000, some 10000),
   ("power_generation_total", 0, 10000, some 30),
   ("load_voltage", 0, 80, some 20),
   ("load_current", 0, 100, some 50),
   ("load_power", 0, 3000, some 1500),
   ("power_consumption_today", 0, 50000, some 1000),
   ("max_discharging_power_today", 0, 3000, some 1000),
   ("controller_temperature", -40, 85, some 4)]

/-! ## sensor.py: the numeric value validator -/

/-- The possible inputs handed to the validator: the Python None, a
numeric value, the float NaN, an infinite float, a string parsing as a
number, and a string float() rejects. -/
inductive SensorInput where
  | vnone
  | num (q : ℚ)
  | nan
  | inf
  | strNum (q : ℚ)
  | strBad
deriving Repr, DecidableEq

/-- Outcome of one call of the validator: the returned value and the new
last-valid baseline. -/
structure ValidationResult where
  value : Option ℚ
  lastValid : Option ℚ
deriving Repr, DecidableEq

/-- The numeric tail of _validate_numeric_value from sensor.py, after the
input has been converted to a number: range check, then slew check. -/
def validateParsedNumeric (limits : Option (ℚ × ℚ × Option ℚ))
    (lastValid : Option ℚ) (q : ℚ) : ValidationResult :=
  match limits with
  | none => ⟨some q, some q⟩
  | some (min_val, max_val, max_change) =>
    if q < min_val ∨ max_val < q then ⟨lastValid, lastValid⟩
    else
      match max_change, lastValid with
      | some mc, some lv =>
        if mc < |q - lv| then ⟨lastValid, lastValid⟩ else ⟨some q, some q⟩
      | _, _ => ⟨some q, some q⟩

/-- Embedding of _validate_numeric_value from sensor.py: None is passed
through as None, a failed float conversion and NaN or infinity return the
last valid value, numbers go through range and slew validation. -/
def validate_numeric_value (limits : Option (ℚ × ℚ × Option ℚ))
    (lastValid : Option ℚ) : SensorInput → ValidationResult
  | .vnone => ⟨none, lastValid⟩
  | .strBad => ⟨lastValid, lastValid⟩
  | .nan => ⟨lastValid, lastValid⟩
  | .inf => ⟨lastValid, lastValid⟩
  | .num q => validateParsedNumeric limits lastValid q
  | .strNum q => validateParsedNumeric limits lastValid q

/-! ## ble.py: the polling coordinator -/

/-- The coordinator attributes consulted by _needs_poll: whether the
runtime is running, whether a connectable transport reference exists,
whether a connection is in progress, and the configured scan interval. -/
structure CoordinatorView where
  hassRunning : Bool
  connectableDevice : Bool
  connectionInProgress : Bool
  scanInterval : ℚ
deriving Repr, DecidableEq

/-- Embedding of _needs_poll from ble.py: the same code runs for every
configured device type; times are seconds as rationals. -/
def needsPoll (c : CoordinatorView) (lastPoll : Option ℚ) (now : ℚ) : Bool :=
  if !c.hassRunning then false
  else if !c.connectableDevice then false
  else if c.connectionInProgress then false
  else
    match lastPoll with
    | none => true
    | some lp => decide (c.scanInterval ≤ now - lp)

/-- A measurement map: decoded measurement keys to rational values. -/
abbrev Measurements := List (String × ℚ)

/-- Python truthiness of an optional dict: None and the empty dict are
falsy. -/
def parsedTruthy : Option Measurements → Bool
  | none => false
  | some m => !m.isEmpty

/-- Outcome of one transport read attempt: the success flag, the error,
and the parsed_data the device holds after the attempt. -/
structure ReadAttempt where
  success : Bool
  error : Option String
  parsed : Option Measurements
deriving Repr, DecidableEq

/-- The coordinator state mutated by _read_device_data and
_async_poll_device. -/
structure CoordState where
  connectionInProgress : Bool
  lastUpdateSuccess : Bool
  data : Measurements
  deviceAvailable : Bool
  deviceError : Option String
deriving Repr, DecidableEq

/-- Embedding of _read_device_data from ble.py with the device-type
branch abstracted into the attempt outcome: availability and
last_update_success are always written from the outcome, and the
coordinator data is replaced only when the attempt succeeded with truthy
parsed_data. -/
def readDeviceData (st : CoordState) (att : ReadAttempt) : CoordState × Bool :=
  let st1 : CoordState :=
    { st with deviceAvailable := att.success
              deviceError := att.error
              lastUpdateSuccess := att.success }
  let st2 : CoordState :=
    if att.success && parsedTruthy att.parsed then
      { st1 with data := att.parsed.getD [] }
    else st1
  (st2, att.success)

/-- Embedding of _async_poll_device from ble.py: skip returning the
cached data when a connection is in progress, else run the read and on a
failure keep the cached data with last_update_success false. -/
def asyncPollDevice (st : CoordState) (att : ReadAttempt) :
    CoordState × Measurements :=
  if st.connectionInProgress then (st, st.data)
  else
    let res := readDeviceData st att
    if res.2 && parsedTruthy att.parsed then (res.1, att.parsed.getD [])
    else ({ res.1 with lastUpdateSuccess := false }, res.1.data)

/-! ## ble.py: the write operations -/

/-- Environment of async_set_load_state: the in-progress flag, whether
service info is available, whether the library exposes
write_single_register, and the radio write outcome. -/
structure LoadWriteEnv where
  connectionInProgress : Bool
  serviceInfoAvailable : Bool
  hasWriteSingleRegister : Bool
  writeSucceeds : Bool
deriving Repr, DecidableEq

/-- Environment of async_write_register: the in-progress flag, whether a
device exists, the two library capability probes, whether the library
write raises, and its outcome. -/
structure RegWriteEnv where
  connectionInProgress : Bool
  hasDevice : Bool
  hasWriteSupport : Bool
  hasWriteRegisterFn : Bool
  writeRaises : Bool
  writeSucceeds : Bool
deriving Repr, DecidableEq

/-- Observable outcome of a write operation: the returned boolean,
whether the radio was touched, and whether the connection arbiter (the
connection lock) was acquired on that path. -/
structure WriteOutcome where
  result : Bool
  attemptedRadio : Bool
  acquiredArbiter : Bool
deriving Repr, DecidableEq

/-- Embedding of async_set_load_state from ble.py: fail fast when a
connection is in progress or service info is missing, then take the
connection lock, check the capability, and write. -/
def async_set_load_state (env : LoadWriteEnv) : WriteOutcome :=
  if env.connectionInProgress then ⟨false, false, false⟩
  else if !env.serviceInfoAvailable then ⟨false, false, false⟩
  else if !env.hasWriteSingleRegister then ⟨false, false, true⟩
  else ⟨env.writeSucceeds, true, true⟩

/-- Embedding of async_write_register from ble.py: device and capability
checks, then the library write is called directly; the in-progress flag
and the connection lock are never consulted on this path. -/
def async_write_register (env : RegWriteEnv) : WriteOutcome :=
  if !env.hasDevice then ⟨false, false, false⟩
  else if !env.hasWriteSupport then ⟨false, false, false⟩
  else if env.hasWriteRegisterFn then
    if env.writeRaises then ⟨false, true, false⟩
    else ⟨env.writeSucceeds, true, false⟩
  else ⟨false, false, false⟩

/-! ## Theorems -/

/-- Claim C5 (code bug): the DeviceType enum of const.py is claimed to
contain members for CONTROLLER, BATTERY, INVERTER, the SHUNT family and
DCC so that every device-type dispatch refers to a defined member; the
enum in const.py defines only CONTROLLER, BATTERY and INVERTER while the
dispatch and name-detection code also refer to SHUNT, SHUNT300 and DCC,
so not every referenced member is defined. -/
theorem device_type_enum_missing_members :
    dispatchReferencedDeviceTypeMembers.contains "SHUNT" = true ∧
    dispatchReferencedDeviceTypeMembers.contains "SHUNT300" = true ∧
    dispatchReferencedDeviceTypeMembers.contains "DCC" = true ∧
    deviceTypeMembers.contains "SHUNT" = false ∧
    deviceTypeMembers.contains "SHUNT300" = false ∧
    deviceTypeMembers.contains "DCC" = false := by
  decide

/-- Claim C9 (confirmed): the validator returns None for a None input,
leaving the last-valid baseline unchanged, while a string that cannot be
parsed as a number returns the last valid value, also leaving the
baseline unchanged. -/
theorem validator_none_cleared_unparseable_kept
    (limits : Option (ℚ × ℚ × Option ℚ)) (lastValid : Option ℚ) :
    validate_numeric_value limits lastValid .vnone = ⟨none, lastValid⟩ ∧
    validate_numeric_value limits lastValid .strBad = ⟨lastValid, lastValid⟩ :=
  ⟨rfl, rfl⟩

/-- Claim C7 (confirmed): with the battery_voltage limits (0, 80, 5) from
SENSOR_VALIDATION_LIMITS and last valid value 70, input 76.1 is rejected
(change 6.1 exceeds 5) returning 70 with the baseline unchanged, and
input 74 is accepted returning 74, which becomes the new baseline. -/
theorem validator_battery_voltage_slew_example :
    validate_numeric_value (SENSOR_VALIDATION_LIMITS.lookup "battery_voltage")
      (some 70) (.num (761/10)) = ⟨some 70, some 70⟩ ∧
    validate_numeric_value (SENSOR_VALIDATION_LIMITS.lookup "battery_voltage")
      (some 70) (.num 74) = ⟨some 74, some 74⟩ := by
  have hl : SENSOR_VALIDATION_LIMITS.lookup "battery_voltage" =
      some (0, 80, some 5) := by rfl
  rw [hl]
  constructor
  · show validateParsedNumeric (some (0, 80, some 5)) (some 70) (761/10) = _
    rw [validateParsedNumeric]
    rw [if_neg (by push_neg; constructor <;> norm_num)]
    rw [show |(761 : ℚ)/10 - 70| = 61/10 by rw [abs_of_nonneg] <;> norm_num]
    rw [if_pos (by norm_num)]
  · show validateParsedNumeric (some (0, 80, some 5)) (some 70) 74 = _
    rw [validateParsedNumeric]
    rw [if_neg (by push_neg; constructor <;> norm_num)]
    rw [show |(74 : ℚ) - 70| = 4 by rw [abs_of_nonneg] <;> norm_num]
    rw [if_neg (by norm_num)]

/-- Claim C1 counterexample: a streaming device attempted 2 minutes ago
and not connected is claimed to be skipped until a 5-minute backoff
elapses; with the default 60-second scan interval the needs-poll
predicate of ble.py already returns true 120 seconds after the attempt,
well before 5 minutes. -/
theorem needs_poll_two_minutes_counterexample :
    needsPoll ⟨true, true, false, DEFAULT_SCAN_INTERVAL⟩ (some 0) 120 = true ∧
    (120 : ℚ) < 5 * 60 := by
  constructor
  · simp [needsPoll]
    norm_num [DEFAULT_SCAN_INTERVAL]
  · norm_num

/-- Claim C1 (corrected): _needs_poll applies the same rule to every
device type, streaming devices included: it returns true exactly when the
runtime is running, a connectable transport exists, no connection is in
progress, and the device was never polled or the elapsed time reached the
configured scan interval; in particular a streaming device attempted 2
minutes ago is polled again under the default 60-second interval, and no
5-minute backoff exists. -/
theorem needs_poll_uniform_scan_interval
    (c : CoordinatorView) (lastPoll : Option ℚ) (now : ℚ) :
    needsPoll c lastPoll now =
      (c.hassRunning && c.connectableDevice && !c.connectionInProgress &&
        (match lastPoll with
         | none => true
         | some lp => decide (c.scanInterval ≤ now - lp))) ∧
    needsPoll ⟨true, true, false, DEFAULT_SCAN_INTERVAL⟩ (some 0) 120 = true := by
  constructor
  · obtain ⟨h1, h2, h3, si⟩ := c
    cases h1 <;> cases h2 <;> cases h3 <;> cases lastPoll <;> simp [needsPoll]
  · simp [needsPoll]
    norm_num [DEFAULT_SCAN_INTERVAL]

/-- Claim C2 counterexample: async_write_register is claimed to acquire
the connection arbiter and to return false without a connection attempt
while a connection is in progress; with a connection in progress and the
library write available it still touches the radio, never acquires the
arbiter, and returns the write result. -/
theorem write_register_ignores_arbiter_counterexample :
    (RegWriteEnv.mk true true true true false true).connectionInProgress = true ∧
    async_write_register (RegWriteEnv.mk true true true true false true) =
      ⟨true, true, false⟩ := by
  decide

/-- Claim C2 (corrected): only async_set_load_state behaves as claimed:
it acquires the connection arbiter before touching the radio and returns
false with no connection attempt when a connection is in progress;
async_write_register never acquires the arbiter and, once the device and
capability checks pass, touches the radio regardless of the in-progress
flag. -/
theorem write_paths_arbiter_discipline
    (e : LoadWriteEnv) (r : RegWriteEnv) :
    ((async_set_load_state e).attemptedRadio = true →
      (async_set_load_state e).acquiredArbiter = true) ∧
    (e.connectionInProgress = true →
      async_set_load_state e = ⟨false, false, false⟩) ∧
    (async_write_register r).acquiredArbiter = false ∧
    (r.hasDevice = true → r.hasWriteSupport = true →
      r.hasWriteRegisterFn = true →
      (async_write_register r).attemptedRadio = true) := by
  refine ⟨?_, ?_, ?_, ?_⟩
  · unfold async_set_load_state
    split_ifs <;> simp
  · intro h
    unfold async_set_load_state
    simp [h]
  · unfold async_write_register
    split_ifs <;> simp
  · intro h1 h2 h3
    unfold async_write_register
    simp [h1, h2, h3]
    split_ifs <;> simp

/-- Witness for claim C2: at a concrete environment with a connection in
progress, async_set_load_state returns false without touching the radio
or the arbiter. -/
theorem write_paths_arbiter_discipline_witness :
    async_set_load_state ⟨true, true, true, true⟩ = ⟨false, false, false⟩ ∧
    (async_write_register ⟨false, true, true, true, false, true⟩).attemptedRadio
      = true := by
  constructor
  · exact (write_paths_arbiter_discipline ⟨true, true, true, true⟩
      ⟨false, true, true, true, false, true⟩).2.1 rfl
  · exact (write_paths_arbiter_discipline ⟨true, true, true, true⟩
      ⟨false, true, true, true, false, true⟩).2.2.2 rfl rfl rfl

/-- Claim C6 (confirmed): every read attempt writes the device
availability, the device error and the last_update_success flag from the
attempt outcome regardless of success; the published data is replaced
only by a successful attempt with truthy parsed data, it is replaced by
exactly the decoded map, and a failed attempt leaves the published data
unchanged, both in _read_device_data and on the failure path of
_async_poll_device. -/
theorem read_attempt_always_updates_flags_data_only_on_success
    (st : CoordState) (att : ReadAttempt) :
    (readDeviceData st att).1.deviceAvailable = att.success ∧
    (readDeviceData st att).1.deviceError = att.error ∧
    (readDeviceData st att).1.lastUpdateSuccess = att.success ∧
    (att.success = false → (readDeviceData st att).1.data = st.data) ∧
    ((readDeviceData st att).1.data ≠ st.data →
      att.success = true ∧ att.parsed = some (readDeviceData st att).1.data) ∧
    (att.success = true → parsedTruthy att.parsed = true →
      (readDeviceData st att).1.data = att.parsed.getD []) ∧
    (st.connectionInProgress = false → att.success = false →
      (asyncPollDevice st att).1.data = st.data ∧
      (asyncPollDevice st att).1.lastUpdateSuccess = false) := by
  by_cases hb : att.success && parsedTruthy att.parsed
  · have hs : att.success = true := (Bool.and_eq_true_iff.mp hb).1
    have ht : parsedTruthy att.parsed = true := (Bool.and_eq_true_iff.mp hb).2
    obtain ⟨m, hm⟩ : ∃ m, att.parsed = some m := by
      cases hp : att.parsed
      · rw [hp] at ht
        simp [parsedTruthy] at ht
      · exact ⟨_, rfl⟩
    refine ⟨by simp [readDeviceData, hb], by simp [readDeviceData, hb],
      by simp [readDeviceData, hb], ?_, ?_, ?_, ?_⟩
    · intro h
      rw [h] at hs
      exact absurd hs (by simp)
    · intro _
      refine ⟨hs, ?_⟩
      have ht2 : parsedTruthy (some m) = true := hm ▸ ht
      simp [readDeviceData, hb, hm]
      rw [if_pos ⟨hs, ht2⟩]
    · intro _ _
      simp [readDeviceData, hb]
    · intro _ h
      rw [h] at hs
      exact absurd hs (by simp)
  · refine ⟨by simp [readDeviceData, hb], by simp [readDeviceData, hb],
      by simp [readDeviceData, hb], ?_, ?_, ?_, ?_⟩
    · intro _
      simp [readDeviceData, hb]
    · intro h
      exact absurd (by simp [readDeviceData, hb]) h
    · intro hs ht
      rw [hs, ht] at hb
      simp at hb
    · intro hc hs
      have : (readDeviceData st att).2 = att.success := by simp [readDeviceData]
      constructor
      · simp [asyncPollDevice, hc, this, hs, readDeviceData, hb]
      · simp [asyncPollDevice, hc, this, hs, readDeviceData, hb]

/-- Witness for claim C6: a concrete failed attempt leaves the published
data unchanged while availability and the success flag are written. -/
theorem read_attempt_always_updates_flags_witness :
    (readDeviceData ⟨false, true, [("battery_voltage", 13)], true, none⟩
      ⟨false, some "timeout", none⟩).1.data = [("battery_voltage", 13)] ∧
    (readDeviceData ⟨false, true, [("battery_voltage", 13)], true, none⟩
      ⟨false, some "timeout", none⟩).1.lastUpdateSuccess = false := by
  constructor
  · exact (read_attempt_always_updates_flags_data_only_on_success
      ⟨false, true, [("battery_voltage", 13)], true, none⟩
      ⟨false, some "timeout", none⟩).2.2.2.1 rfl
  · exact (read_attempt_always_updates_flags_data_only_on_success
      ⟨false, true, [("battery_voltage", 13)], true, none⟩
      ⟨false, some "timeout", none⟩).2.2.1

/-- Helper: taking the length of an earlier take is the same take. -/
theorem take_of_take_length (d : List ℕ) (n : ℕ) :
    d.take ((d.take n).length) = d.take n := by
  rw [List.length_take]
  exact List.take_eq_take.mpr (by omega)

/-- Helper: find? over a contiguous range returns the first index k at
which the predicate holds. -/
theorem find?_range'_eq_some (p : ℕ → Bool) (n : ℕ) :
    ∀ (a k : ℕ), a ≤ k → k < a + n →
    (∀ i, a ≤ i → i < k → p i = false) → p k = true →
    (List.range' a n).find? p = some k := by
  induction n with
  | zero => intro a k hak hkn _ _; omega
  | succ n ih =>
    intro a k hak hkn hbefore hk
    rw [List.range'_succ]
    rcases Nat.eq_or_lt_of_le hak with h | h
    · subst h
      simp [List.find?_cons, hk]
    · rw [List.find?_cons, hbefore a le_rfl h]
      exact ih (a + 1) k (by omega) (by omega)
        (fun i hi hik => hbefore i (by omega) hik) hk

/-- Claim C10 counterexample: when the input is payload plus CRC (length
byte_count + 2) the synthesized frame keeps only the first byte_count
input bytes as payload, so the payload bytes of the frame are not the
whole input buffer. -/
theorem normalize_synth_payload_counterexample :
    (normalize_modbus_response [1, 2, 3, 4] 3 1 5).wasSynthesized = true ∧
    decide (((normalize_modbus_response [1, 2, 3, 4] 3 1 5).frame.drop 3).take
      ((normalize_modbus_response [1, 2, 3, 4] 3 1 5).frame.length - 5) =
      [1, 2, 3, 4]) = false := by
  decide

/-- Claim C10 (corrected): whenever normalize reports wasSynthesized =
false the returned frame is exactly the contiguous slice of the input at
the returned offset; whenever wasSynthesized = true the offset is 0 and
the whole input buffer appears byte-identical in the frame immediately
after the 3-byte synthesized header (so the payload bytes are the first
byte_count bytes of the input, followed by the input CRC when one was
present). -/
theorem normalize_slice_of_input
    (raw : List ℕ) (function_code word_count device_id : ℕ) :
    ((normalize_modbus_response raw function_code word_count device_id).wasSynthesized
        = false →
      (normalize_modbus_response raw function_code word_count device_id).frame =
        (raw.drop
          (normalize_modbus_response raw function_code word_count device_id).offset).take
          (normalize_modbus_response raw function_code word_count device_id).frame.length) ∧
    ((normalize_modbus_response raw function_code word_count device_id).wasSynthesized
        = true →
      (normalize_modbus_response raw function_code word_count device_id).offset = 0 ∧
      ((normalize_modbus_response raw function_code word_count device_id).frame.drop 3).take
        raw.length = raw) := by
  unfold normalize_modbus_response
  split_ifs with h1 h2 h3 h4
  · refine ⟨fun h => by simp at h, fun _ => ⟨rfl, ?_⟩⟩
    rw [List.append_assoc]
    show ((_ :: _ :: _ :: (raw ++ [0, 0])).drop 3).take raw.length = raw
    rw [List.drop_succ_cons, List.drop_succ_cons, List.drop_succ_cons,
      List.drop_zero, List.take_left]
  · refine ⟨fun h => by simp at h, fun _ => ⟨rfl, ?_⟩⟩
    show ((_ :: _ :: _ :: raw).drop 3).take raw.length = raw
    rw [List.drop_succ_cons, List.drop_succ_cons, List.drop_succ_cons,
      List.drop_zero, List.take_length]
  · exact ⟨fun _ => by simp, fun h => by simp at h⟩
  · refine ⟨fun _ => ?_, fun h => by simp at h⟩
    simp only [List.drop_zero]
    exact (take_of_take_length raw _).symm
  · cases hs : scanExact raw function_code (word_count * 2)
      (3 + word_count * 2 + 2) with
    | some s =>
      refine ⟨fun _ => ?_, fun h => by simp [hs] at h⟩
      simp only [hs]
      exact (take_of_take_length (raw.drop s) _).symm
    | none =>
      cases hr : scanRelaxed raw function_code with
      | some s =>
        refine ⟨fun _ => ?_, fun h => by simp [hs, hr] at h⟩
        simp only [hs, hr]
        exact (take_of_take_length (raw.drop s) _).symm
      | none =>
        refine ⟨fun _ => ?_, fun h => by simp [hs, hr] at h⟩
        simp only [hs, hr, List.drop_zero]
        exact (take_of_take_length raw _).symm

/-- Witness for claim C10: a short buffer is returned unsliced at offset
0, and a bare payload is synthesized with the input after the header. -/
theorem normalize_slice_of_input_witness :
    (normalize_modbus_response [1, 2, 3] 3 1 1).frame =
      (([1, 2, 3] : List ℕ).drop
        (normalize_modbus_response [1, 2, 3] 3 1 1).offset).take
        (normalize_modbus_response [1, 2, 3] 3 1 1).frame.length ∧
    ((normalize_modbus_response [1, 2] 3 1 1).frame.drop 3).take 2 = [1, 2] := by
  constructor
  · exact (normalize_slice_of_input [1, 2, 3] 3 1 1).1 rfl
  · exact ((normalize_slice_of_input [1, 2] 3 1 1).2 rfl).2

/-- Claim C4 counterexample: three bytes of leading noise whose tail
mimics the expected header make the offset-0 check of
normalize_modbus_response fire, so the original frame is not recovered
and the reported offset is 0, not 3. -/
theorem normalize_noise_mimics_header_counterexample :
    normalize_modbus_response ([9, 3, 2] ++ [1, 3, 2, 7, 8, 9, 10]) 3 1 1 =
      ⟨[9, 3, 2, 1, 3, 2, 7], 0, false⟩ ∧
    decide (normalize_modbus_response ([9, 3, 2] ++ [1, 3, 2, 7, 8, 9, 10]) 3 1 1 =
      ⟨[1, 3, 2, 7, 8, 9, 10], 3, false⟩) = false := by
  decide

/-- Claim C4 (corrected): for every valid frame (correct length, function
code and byte count in its header) and every block of leading noise that
nowhere presents the expected function-code and byte-count pair at the
scanned positions before the frame, normalize returns the frame
byte-identical with offset equal to the noise length and no synthesis. -/
theorem normalize_recovers_frame_after_clean_noise
    (frame noise : List ℕ) (function_code word_count device_id : ℕ)
    (hlen : frame.length = 3 + word_count * 2 + 2)
    (hfc : frame.getD 1 0 = function_code)
    (hbc : frame.getD 2 0 = word_count * 2)
    (hnoise : ∀ i, i < noise.length →
      ¬((noise ++ frame).getD (i + 1) 0 = function_code ∧
        (noise ++ frame).getD (i + 2) 0 = word_count * 2)) :
    normalize_modbus_response (noise ++ frame) function_code word_count device_id =
      ⟨frame, noise.length, false⟩ := by
  have hraw : (noise ++ frame).length = noise.length + (3 + word_count * 2 + 2) := by
    rw [List.length_append, hlen]
  unfold normalize_modbus_response
  rw [if_neg (by rw [hraw]; omega), if_neg (by rw [hraw]; omega),
    if_neg (by rw [hraw]; omega)]
  rcases Nat.eq_zero_or_pos noise.length with hk0 | hkpos
  · have hnil : noise = [] := List.length_eq_zero.mp hk0
    subst hnil
    rw [List.nil_append, if_pos ⟨hfc, hbc⟩, ← hlen, List.take_length]
    rw [List.length_nil]
  · rw [if_neg (fun hcon => hnoise 0 hkpos (by simpa using hcon))]
    have hscan : scanExact (noise ++ frame) function_code (word_count * 2)
        (3 + word_count * 2 + 2) = some noise.length := by
      unfold scanExact
      apply find?_range'_eq_some _ _ 1 noise.length hkpos (by rw [hraw]; omega)
      · intro i h1i hik
        have hni := hnoise i hik
        simp only [Bool.and_eq_false_iff, decide_eq_false_iff_not]
        exact not_and_or.mp hni
      · have e1 : (noise ++ frame).getD (noise.length + 1) 0 = frame.getD 1 0 := by
          rw [List.getD_append_right _ _ _ _ (by omega)]
          congr 1
          omega
        have e2 : (noise ++ frame).getD (noise.length + 2) 0 = frame.getD 2 0 := by
          rw [List.getD_append_right _ _ _ _ (by omega)]
          congr 1
          omega
        simp only [Bool.and_eq_true, decide_eq_true_eq]
        exact ⟨e1.trans hfc, e2.trans hbc⟩
    rw [hscan]
    show (⟨((noise ++ frame).drop noise.length).take (3 + word_count * 2 + 2),
      noise.length, false⟩ : NormResult) = _
    rw [List.drop_left, ← hlen, List.take_length]

/-- Witness for claim C4: a concrete frame behind three bytes of
header-free noise is recovered byte-identical at offset 3. -/
theorem normalize_recovers_frame_witness :
    normalize_modbus_response ([5, 0, 0] ++ [1, 3, 2, 7, 8, 9, 10]) 3 1 1 =
      ⟨[1, 3, 2, 7, 8, 9, 10], 3, false⟩ :=
  normalize_recovers_frame_after_clean_noise [1, 3, 2, 7, 8, 9, 10] [5, 0, 0]
    3 1 1 (by decide) (by decide) (by decide) (by decide)

/-- Claim C8 (confirmed): parse_shunt_packet returns none, raising
nothing, for every input shorter than 36 bytes or whose first two bytes
are not the magic 0x42 0x57; for every input satisfying both
preconditions it returns the measurement map with sequence,
battery_voltage, battery_current, starter_voltage, state_of_charge, and
power = round(battery_voltage * battery_current, 2). -/
theorem parse_shunt_packet_preconditions (data : List ℕ) :
    ((data.length < 36 ∨ data.getD 0 0 ≠ 0x42 ∨ data.getD 1 0 ≠ 0x57) →
      parse_shunt_packet data = none) ∧
    (36 ≤ data.length → data.getD 0 0 = 0x42 → data.getD 1 0 = 0x57 →
      parse_shunt_packet data = some
        { sequence := beNat data 2 2
          battery_voltage := bytes_to_int data 25 3 false (1/1000)
          battery_current := bytes_to_int data 21 3 true (1/1000)
          starter_voltage := bytes_to_int data 30 2 false (1/1000)
          state_of_charge := bytes_to_int data 34 2 false (1/10)
          power := pyRound (bytes_to_int data 25 3 false (1/1000) *
            bytes_to_int data 21 3 true (1/1000)) 2 }) := by
  constructor
  · intro h
    unfold parse_shunt_packet
    by_cases g1 : data.length = 0
    · rw [if_pos g1]
    · rw [if_neg g1]
      by_cases g2 : data.length < 36
      · rw [if_pos g2]
      · rw [if_neg g2]
        have g3 : ¬(data.getD 0 0 = 0x42 ∧ data.getD 1 0 = 0x57) := by
          rcases h with h | h | h
          · omega
          · exact fun hcon => h hcon.1
          · exact fun hcon => h hcon.2
        rw [if_pos g3]
  · intro hlen h0 h1
    unfold parse_shunt_packet
    rw [if_neg (by omega), if_neg (by omega), if_neg (not_not_intro ⟨h0, h1⟩)]

/-- Witness for claim C8: a one-byte packet parses to none, and a
36-byte packet with the magic header parses to the decoded map. -/
theorem parse_shunt_packet_preconditions_witness :
    parse_shunt_packet [0] = none ∧
    parse_shunt_packet (0x42 :: 0x57 :: List.replicate 34 0) = some
      { sequence := beNat (0x42 :: 0x57 :: List.replicate 34 0) 2 2
        battery_voltage :=
          bytes_to_int (0x42 :: 0x57 :: List.replicate 34 0) 25 3 false (1/1000)
        battery_current :=
          bytes_to_int (0x42 :: 0x57 :: List.replicate 34 0) 21 3 true (1/1000)
        starter_voltage :=
          bytes_to_int (0x42 :: 0x57 :: List.replicate 34 0) 30 2 false (1/1000)
        state_of_charge :=
          bytes_to_int (0x42 :: 0x57 :: List.replicate 34 0) 34 2 false (1/10)
        power := pyRound
          (bytes_to_int (0x42 :: 0x57 :: List.replicate 34 0) 25 3 false (1/1000) *
           bytes_to_int (0x42 :: 0x57 :: List.replicate 34 0) 21 3 true (1/1000)) 2 } := by
  constructor
  · exact (parse_shunt_packet_preconditions [0]).1 (Or.inl (by decide))
  · exact (parse_shunt_packet_preconditions _).2 (by decide) (by decide) (by decide)

/-- Claim C3 (confirmed): the shunt payload parser rejects the whole
packet, returning none rather than raising, whenever the decoded voltage
is outside the interval from 0 to 80 or the absolute current exceeds 500
or the absolute power exceeds 10000; when those bounds hold, an
out-of-range battery temperature or state of charge is individually
nulled while the rest of the packet is returned. -/
theorem parse_shunt_payload_sanity_bounds (payload : List ℕ) (v c : ℚ)
    (hv : decodedShuntVoltage payload = some v)
    (hc : decodedShuntCurrent payload = some c) :
    ((v < 0 ∨ 80 < v ∨ 500 < |c| ∨ 10000 < |pyRound (v * c) 2|) →
      parse_shunt_payload payload = none) ∧
    (0 ≤ v → v ≤ 80 → |c| ≤ 500 → |pyRound (v * c) 2| ≤ 10000 →
      parse_shunt_payload payload = some
        { shunt_voltage := v
          shunt_current := c
          shunt_power := pyRound (v * c) 2
          shunt_soc := match decodedShuntSoc payload with
            | some s => if s < 0 ∨ 200 < s then none else some s
            | none => none
          shunt_energy := none
          starter_battery_voltage := decodedStarterVoltage payload
          battery_temperature := match decodedShuntTemp payload with
            | some t => if t < -40 ∨ 100 < t then none else some t
            | none => none }) := by
  constructor
  · intro h
    unfold parse_shunt_payload
    simp only [hv, hc]
    split_ifs with g1 g2 g3
    · rfl
    · rfl
    · rfl
    · exfalso
      rcases h with h | h | h | h
      · exact g1 (Or.inl h)
      · exact g1 (Or.inr h)
      · exact g2 h
      · exact g3 h
  · intro h0 h80 hc500 hp
    unfold parse_shunt_payload
    simp only [hv, hc]
    rw [if_neg (by push_neg; exact ⟨h0, h80⟩), if_neg (not_lt.mpr hc500),
      if_neg (not_lt.mpr hp)]

/-- Witness for claim C3: a 28-byte payload encoding 13.2 V and 5.4 A is
accepted; starter voltage, state of charge and temperature fall outside
the short payload and come back as none. -/
theorem parse_shunt_payload_sanity_witness :
    parse_shunt_payload
      [0, 0, 0, 0, 0, 0, 0, 0, 0, 0, 0, 0, 0, 0, 0, 0, 0, 0, 0, 0, 0,
       0, 21, 24, 0, 0, 51, 144] =
      some ⟨66/5, 27/5, pyRound ((66/5) * (27/5)) 2, none, none, none, none⟩ := by
  have hv : decodedShuntVoltage
      [0, 0, 0, 0, 0, 0, 0, 0, 0, 0, 0, 0, 0, 0, 0, 0, 0, 0, 0, 0, 0,
       0, 21, 24, 0, 0, 51, 144] = some (66/5) := by
    norm_num [decodedShuntVoltage, bytesToNumber, beInt, beNat, pyRound,
      roundHalfEven]
  have hc : decodedShuntCurrent
      [0, 0, 0, 0, 0, 0, 0, 0, 0, 0, 0, 0, 0, 0, 0, 0, 0, 0, 0, 0, 0,
       0, 21, 24, 0, 0, 51, 144] = some (27/5) := by
    norm_num [decodedShuntCurrent, bytesToNumber, beInt, beNat, pyRound,
      roundHalfEven]
  have habs : |(27 : ℚ)/5| ≤ 500 := by
    rw [abs_of_nonneg] <;> norm_num
  have hpw : pyRound ((66 : ℚ)/5 * (27/5)) 2 = 7128/100 := by
    norm_num [pyRound, roundHalfEven]
  have habs2 : |pyRound ((66 : ℚ)/5 * (27/5)) 2| ≤ 10000 := by
    rw [hpw, abs_of_nonneg] <;> norm_num
  have happ := (parse_shunt_payload_sanity_bounds _ (66/5) (27/5) hv hc).2
    (by norm_num) (by norm_num) habs habs2
  rw [happ]
  norm_num [decodedShuntSoc, decodedShuntTemp, decodedStarterVoltage, bytesToNumber]

end Renogy
